import Mathlib

/-!
Shallow embedding of the `mobile_endpoints` repository
(`src/mobile_endpoints/api/invoice.py`, `api/utils.py`, `api/user.py`).

The host framework (frappe) is modelled as an opaque collaborator:
* the document store is a plain list of records, already in the order the
  framework's `order_by` would return;
* `frappe.get_all(filters, start, page_length)` becomes
  filter-then-drop-then-take on that list;
* `frappe.db.count(filters)` becomes the length of the filtered list;
* the permission oracle `has_permission` (both the doctype-level and the
  document-level form) becomes a function `String → Bool` from permission
  type (`ptype`) to a verdict;
* `frappe.throw` becomes an `Except.error`; a mutating endpoint returns the
  new state of the store alongside its `Except` result.

Numeric values that the code handles with `flt` (Python floats) are modelled
as rationals `ℚ`; `cint` inputs are modelled by `Param` (a numeric value or a
non-numeric string, which `cint` maps to 0).
-/

/-- Request parameter fed to `frappe.utils.cint`: either a numeric value or a
non-numeric string (which `cint` converts to 0). -/
inductive Param where
  | intVal (n : Int)
  | nonNum (s : String)
deriving Repr, DecidableEq

/-- `frappe.utils.cint`: numeric values pass through, non-numeric input
becomes 0. -/
def cintP : Param → Int
  | .intVal n => n
  | .nonNum _ => 0

/-- Python truthiness of an optional string: `None` and `""` are falsy. -/
def truthyS : Option String → Bool
  | none => false
  | some s => s ≠ ""

/-- Python `a or b` for an optional string value `a` with fallback `b`:
the fallback is used when `a` is `None` or empty. -/
def sOr : Option String → String → String
  | none, d => d
  | some v, d => if v = "" then d else v

/-- Python `a or b` for an optional numeric value `a` (after `flt`) with
fallback `b`: the fallback is used when `a` is `None` or `0`. -/
def qOr : Option ℚ → ℚ → ℚ
  | none, d => d
  | some v, d => if v = 0 then d else v

/-- `flt` applied to an optional numeric value: `None` becomes 0. -/
def fltOpt (x : Option ℚ) : ℚ := x.getD 0

/-- Whether `pat` is a prefix of `hay` (on character lists). -/
def listPrefixEq : List Char → List Char → Bool
  | [], _ => true
  | _ :: _, [] => false
  | a :: as, b :: bs => a == b && listPrefixEq as bs

/-- Whether `pat` occurs contiguously inside `hay` (Python `in` on strings,
SQL `LIKE '%pat%'`). -/
def listContains (pat : List Char) : List Char → Bool
  | [] => listPrefixEq pat []
  | c :: t => listPrefixEq pat (c :: t) || listContains pat t

/-- `pat` is a substring of `hay`. -/
def strContainsSub (hay pat : String) : Bool :=
  listContains pat.toList hay.toList

/-- Python `str.lower()` (ASCII case folding, computed character-wise so the
kernel can evaluate it). -/
def lowerStr (s : String) : String :=
  String.mk (s.toList.map Char.toLower)

/-- Python `str.strip()`: drop leading and trailing whitespace. -/
def trimStr (s : String) : String :=
  String.mk
    (((s.toList.dropWhile Char.isWhitespace).reverse.dropWhile
        Char.isWhitespace).reverse)

/-- Invoice item child-table row (`items` rows of an "Invoice Form"). -/
structure InvItem where
  name : String
  item_code : String
  item_name : String
  qty : ℚ
  price : ℚ
  total : ℚ
  customer : String
deriving Repr, DecidableEq

/-- An "Invoice Form" document as stored by the framework. -/
structure Invoice where
  name : String
  posting_date : String
  supplier : String
  supplier_name : String
  grand_total : ℚ
  docstatus : Int
  lock_update : Int
  is_draft : Int
  total_commissions_and_taxes : ℚ
  pamper_commission : ℚ
  remarks : String
  items : List InvItem
deriving Repr, DecidableEq

/-- Effective page number: `max(1, cint(page))`. -/
def pageEff (p : Param) : Int := max 1 (cintP p)

/-- Effective page size: `max(1, min(cap, cint(page_size)))` where `cap` is
100 for `get_invoices` and 200 for the lookup endpoints. -/
def sizeEff (cap : Int) (p : Param) : Int := max 1 (min cap (cintP p))

/-- Zero-based offset of the requested page: `(page - 1) * page_size`. -/
def startIdx (pg ps : Int) : Nat := (pg - 1).toNat * ps.toNat

/-- The filter list built by `get_invoices`: `posting_date >= start_date`,
`posting_date <= end_date`, `supplier = supplier`, each appended only when
the corresponding parameter is truthy.  Date strings are ISO `YYYY-MM-DD`,
so the SQL comparison is string comparison. -/
def invMatches (sd ed sup : Option String) (inv : Invoice) : Bool :=
  (!truthyS sd || decide (sd.getD "" ≤ inv.posting_date)) &&
  (!truthyS ed || decide (inv.posting_date ≤ ed.getD "")) &&
  (!truthyS sup || inv.supplier == sup.getD "")

/-- The in-memory search post-filter of `get_invoices`: the lowered, trimmed
search string must occur in the lowered `name` or `supplier_name`. -/
def searchMatch (s : String) (inv : Invoice) : Bool :=
  strContainsSub (lowerStr inv.name) s ||
  strContainsSub (lowerStr inv.supplier_name) s

/-- The constant per-invoice `permission` object in responses. -/
structure PermOut where
  can_update : Bool
  can_delete : Bool
  can_submit : Bool
  locked : Bool
deriving Repr, DecidableEq

/-- One row of the `get_invoices` response. -/
structure InvoiceListRow where
  id : String
  invoiceNumber : String
  supplierId : String
  supplierName : String
  date : String
  amount : ℚ
  permission : PermOut
deriving Repr, DecidableEq

/-- Shape one fetched record for the `get_invoices` response. -/
def shapeListRow (r : Invoice) : InvoiceListRow :=
  { id := r.name
    invoiceNumber := r.name
    supplierId := sOr (some r.supplier) ""
    supplierName := sOr (some r.supplier_name) ""
    date := r.posting_date
    amount := qOr (some r.grand_total) 0
    permission := { can_update := true, can_delete := true,
                    can_submit := true, locked := false } }

/-- The `get_invoices` response. -/
structure InvoicesResp where
  invoices : List InvoiceListRow
  page : Int
  page_size : Int
  total_count : Nat
  has_more : Bool
deriving Repr, DecidableEq

/-- `get_invoices` (invoice.py).  `perm` is the permission oracle, `db` the
"Invoice Form" store in the framework's `order_by` order. -/
def getInvoices (perm : String → Bool) (db : List Invoice)
    (start_date end_date supplier : Option String)
    (page page_size : Param) (search : Option String) :
    Except String InvoicesResp :=
  if !(perm "read") then .error "Not permitted" else
  let pg := pageEff page
  let ps := sizeEff 100 page_size
  let start := startIdx pg ps
  let filtered := db.filter (invMatches start_date end_date supplier)
  let fetched := (filtered.drop start).take ps.toNat
  let rows :=
    if truthyS search then
      let s := lowerStr (trimStr (search.getD ""))
      fetched.filter (searchMatch s)
    else fetched
  let total_count := filtered.length
  let invoices := rows.map shapeListRow
  .ok { invoices := invoices
        page := pg
        page_size := ps
        total_count := total_count
        has_more := decide (start + invoices.length < total_count) }

/-- One item row of the `get_invoice_details` response. -/
structure DetailItem where
  id : String
  name : String
  quantity : ℚ
  price : ℚ
  total : ℚ
  customerId : String
  customerName : String
deriving Repr, DecidableEq

/-- The `get_invoice_details` response. -/
structure DetailsResp where
  id : String
  invoiceNumber : String
  supplierId : String
  supplierName : String
  date : String
  amount : ℚ
  status : String
  is_locked : Bool
  items : List DetailItem
  tax : ℚ
  notes : String
  permission : PermOut
deriving Repr, DecidableEq

/-- `status_map.get(doc.docstatus or 0, "draft")`. -/
def statusOf (ds : Int) : String :=
  if ds = 1 then "submitted" else if ds = 2 then "cancelled" else "draft"

/-- Shape one child-table row for `get_invoice_details`. -/
def shapeDetailItem (it : InvItem) : DetailItem :=
  { id := it.name
    name := sOr (some it.item_name) it.item_code
    quantity := qOr (some it.qty) 0
    price := qOr (some it.price) 0
    total := qOr (some it.total) 0
    customerId := it.customer
    customerName := it.customer }

/-- `frappe.get_doc(doctype, name)`: first stored document with that name. -/
def findDoc (db : List Invoice) (name : String) : Option Invoice :=
  db.find? (fun d => d.name == name)

/-- `doc.save()`: overwrite the stored document with the given name. -/
def replaceDoc (db : List Invoice) (name : String) (d : Invoice) : List Invoice :=
  db.map (fun x => if x.name == name then d else x)

/-- `frappe.delete_doc(doctype, name)`: remove the document with that name. -/
def removeDoc (db : List Invoice) (name : String) : List Invoice :=
  db.filter (fun x => x.name != name)

/-- `get_invoice_details` (invoice.py). -/
def getInvoiceDetails (perm : String → Bool) (db : List Invoice)
    (name : String) : Except String DetailsResp :=
  if name = "" then .error "Missing invoice name" else
  match findDoc db name with
  | none => .error "Invoice Form not found"
  | some doc =>
    if !(perm "read") then .error "Not permitted" else
    let status := statusOf doc.docstatus
    let is_locked := doc.lock_update != 0
    .ok { id := doc.name
          invoiceNumber := doc.name
          supplierId := doc.supplier
          supplierName := doc.supplier_name
          date := doc.posting_date
          amount := qOr (some doc.grand_total) 0
          status := status
          is_locked := is_locked
          items := doc.items.map shapeDetailItem
          tax := qOr (some doc.total_commissions_and_taxes) 0
          notes := doc.remarks
          permission := { can_update := true, can_delete := true,
                          can_submit := true, locked := is_locked } }

/-- One entry of an `items[]` payload list, with every key optional
(a missing key reads as `None`). -/
structure ItemPayload where
  item_code : Option String
  item_name : Option String
  qty : Option ℚ
  quantity : Option ℚ
  price : Option ℚ
  total : Option ℚ
  customer : Option String
  customerId : Option String
deriving Repr, DecidableEq

/-- The `update_invoice` payload (only the keys the handler reads). -/
structure UpdatePayload where
  posting_date : Option String
  supplier : Option String
  supplier_name : Option String
  items : Option (List ItemPayload)
deriving Repr, DecidableEq

/-- Build one replaced child row in `update_invoice`. -/
def updRow (it : ItemPayload) : InvItem :=
  let qty := qOr it.qty (qOr it.quantity 0)
  let price := qOr it.price 0
  { name := ""
    item_code := sOr it.item_code ""
    item_name := sOr it.item_name ""
    qty := qty
    price := price
    total := qOr it.total (qty * price)
    customer := sOr it.customer (sOr it.customerId "") }

/-- `update_invoice` (invoice.py): returns the result and the new store. -/
def updateInvoice (perm : String → Bool) (db : List Invoice)
    (name : String) (data : Option UpdatePayload) :
    Except String String × List Invoice :=
  if name = "" then (.error "Missing invoice name", db) else
  match findDoc db name with
  | none => (.error "Invoice Form not found", db)
  | some doc =>
    if !(perm "write") then (.error "Not permitted", db) else
    let payload := data.getD { posting_date := none, supplier := none,
                               supplier_name := none, items := none }
    let d1 := if truthyS payload.posting_date then
        { doc with posting_date := payload.posting_date.getD "" } else doc
    let d2 := if truthyS payload.supplier then
        { d1 with supplier := payload.supplier.getD "" } else d1
    let d3 := if truthyS payload.supplier_name then
        { d2 with supplier_name := payload.supplier_name.getD "" } else d2
    let d4 := match payload.items with
      | some its => { d3 with items := its.map updRow }
      | none => d3
    (.ok d4.name, replaceDoc db name d4)

/-- The `submit_invoice` response. -/
structure SubmitResp where
  name : String
  docstatus : Int
deriving Repr, DecidableEq

/-- `submit_invoice` (invoice.py): `doc.submit()` is the framework primitive
that sets `docstatus` to 1. -/
def submitInvoice (perm : String → Bool) (db : List Invoice)
    (name : String) : Except String SubmitResp × List Invoice :=
  if name = "" then (.error "Missing invoice name", db) else
  match findDoc db name with
  | none => (.error "Invoice Form not found", db)
  | some doc =>
    if !(perm "submit") then (.error "Not permitted", db) else
    if doc.docstatus ≠ 0 then
      (.error "Only draft invoices can be submitted", db)
    else
      let d2 := { doc with docstatus := 1 }
      (.ok { name := d2.name, docstatus := d2.docstatus },
       replaceDoc db name d2)

/-- `delete_invoice` (invoice.py). -/
def deleteInvoice (perm : String → Bool) (db : List Invoice)
    (name : String) : Except String Bool × List Invoice :=
  if name = "" then (.error "Missing invoice name", db) else
  match findDoc db name with
  | none => (.error "Invoice Form not found", db)
  | some _ =>
    if !(perm "delete") then (.error "Not permitted", db) else
    (.ok true, removeDoc db name)

/-- The `create_invoice_form` JSON body (only the keys the handler reads;
a missing key reads as `None`). -/
structure CreatePayload where
  posting_date : Option String
  supplier : Option String
  supplier_name : Option String
  items : Option (List ItemPayload)
  commission_rate : Option ℚ
  tax_rate : Option ℚ
  pamper_commission : Option ℚ
deriving Repr, DecidableEq

/-- `create_invoice_form` accepts the payload: `posting_date` and `supplier`
truthy, and the `items` list non-empty. -/
def acceptedPayload (p : CreatePayload) : Bool :=
  truthyS p.posting_date && truthyS p.supplier &&
  !(p.items.getD []).isEmpty

/-- `item_code` after the in-loop mutation
`if not it.get("item_code") and it.get("item_name"): it["item_code"] = it["item_name"]`. -/
def effItemCode (it : ItemPayload) : Option String :=
  if !truthyS it.item_code && truthyS it.item_name then it.item_name
  else it.item_code

/-- `line_total = flt(it.get("total")) or (qty * price)` with
`qty = flt(it.get("qty") or it.get("quantity") or 0)` and
`price = flt(it.get("price") or 0)`. -/
def lineTotal (it : ItemPayload) : ℚ :=
  let qty := qOr it.qty (qOr it.quantity 0)
  let price := qOr it.price 0
  let t := fltOpt it.total
  if t = 0 then qty * price else t

/-- Build one appended `items` row of the created document.  After the totals
loop `it["total"]` holds `line_total`, so `flt(it.get("total") or 0)` reads
that mutated value. -/
def createRow (it : ItemPayload) : InvItem :=
  { name := ""
    item_code := (effItemCode it).getD ""
    item_name := sOr it.item_name ((effItemCode it).getD "")
    qty := qOr it.qty (qOr it.quantity 0)
    price := qOr it.price 0
    total := qOr (some (lineTotal it)) 0
    customer := sOr it.customer "" }

/-- `grand_total`: the accumulation loop over the items. -/
def grandTotalOf (items : List ItemPayload) : ℚ :=
  items.foldl (fun acc it => acc + lineTotal it) 0

/-- `total_commissions_and_taxes` from the effective rates:
`(gt * cr) / 100 + ((gt * cr) / 100) * tr / 100`. -/
def commTaxesOf (gt cr tr : ℚ) : ℚ :=
  let total_commission := gt * cr / 100
  let taxes_on_commission := total_commission * tr / 100
  total_commission + taxes_on_commission

/-- The "Invoice Form" document built and inserted by `create_invoice_form`;
`newName` is the identifier the framework assigns at insert. -/
def createdDoc (newName : String) (p : CreatePayload) : Invoice :=
  let items := p.items.getD []
  let gt := grandTotalOf items
  { name := newName
    posting_date := p.posting_date.getD ""
    supplier := p.supplier.getD ""
    supplier_name := sOr p.supplier_name ""
    grand_total := gt
    docstatus := 0
    lock_update := 1
    is_draft := 1
    total_commissions_and_taxes :=
      commTaxesOf gt (qOr p.commission_rate 5) (qOr p.tax_rate 15)
    pamper_commission := qOr p.pamper_commission 0
    remarks := ""
    items := items.map createRow }

/-- One row of the `items` array in the `create_invoice_form` response
(`commission`, `couple_customer`, `has_commission_invoice` are read with
`r.get` and are never set, hence `none`). -/
structure CreateRespItem where
  item_code : String
  item_name : String
  qty : ℚ
  price : ℚ
  total : ℚ
  commission : Option ℚ
  customer : String
  couple_customer : Option String
  has_commission_invoice : Option Int
deriving Repr, DecidableEq

/-- The `create_invoice_form` response (`commissions` stays empty: the child
table is created empty and never filled). -/
structure CreateResp where
  name : String
  posting_date : String
  supplier : String
  supplier_name : String
  grand_total : ℚ
  total_commissions_and_taxes : ℚ
  pamper_commission : ℚ
  items : List CreateRespItem
  commissions : List Unit
deriving Repr, DecidableEq

/-- Shape one stored row for the `create_invoice_form` response. -/
def shapeCreateRespItem (r : InvItem) : CreateRespItem :=
  { item_code := r.item_code
    item_name := r.item_name
    qty := r.qty
    price := r.price
    total := r.total
    commission := none
    customer := r.customer
    couple_customer := none
    has_commission_invoice := none }

/-- The successful `create_invoice_form` response body. -/
def createResp (newName : String) (p : CreatePayload) : CreateResp :=
  let d := createdDoc newName p
  { name := d.name
    posting_date := d.posting_date
    supplier := d.supplier
    supplier_name := d.supplier_name
    grand_total := d.grand_total
    total_commissions_and_taxes := d.total_commissions_and_taxes
    pamper_commission := d.pamper_commission
    items := d.items.map shapeCreateRespItem
    commissions := [] }

/-- `create_invoice_form` (invoice.py).  Note: the handler never consults the
permission oracle, and inserts with `ignore_permissions=True`; `perm` is
threaded only to expose that fact in theorems. -/
def createInvoiceForm (perm : String → Bool) (db : List Invoice)
    (newName : String) (p : CreatePayload) :
    Except String CreateResp × List Invoice :=
  let _ := perm
  if !truthyS p.posting_date || !truthyS p.supplier then
    (.error "Missing required fields: posting_date, supplier", db)
  else if (p.items.getD []).isEmpty then
    (.error "At least one item is required", db)
  else
    (.ok (createResp newName p), db ++ [createdDoc newName p])

/-- A "Supplier" document. -/
structure Supplier where
  name : String
  supplier_name : String
  is_farmer : Int
deriving Repr, DecidableEq

/-- A "Customer" document. -/
structure Customer where
  name : String
  customer_name : String
deriving Repr, DecidableEq

/-- An "Item" document. -/
structure ItemDoc where
  name : String
  item_name : String
  item_code : String
  disabled : Int
deriving Repr, DecidableEq

/-- SQL `field LIKE '%search.strip()%'` (collation details delegated to the
framework; modelled as substring containment of the trimmed search). -/
def likeMatch (field : String) (search : String) : Bool :=
  strContainsSub field (trimStr search)

/-- The `get_supplier` filter: `is_farmer = 1` and, when a search is given,
`supplier_name LIKE %s% OR name LIKE %s%`. -/
def supplierPred (search : Option String) (s : Supplier) : Bool :=
  s.is_farmer == 1 &&
  (if truthyS search then
     likeMatch s.supplier_name (search.getD "") || likeMatch s.name (search.getD "")
   else true)

/-- The `get_customer` filter. -/
def customerPred (search : Option String) (c : Customer) : Bool :=
  if truthyS search then
    likeMatch c.customer_name (search.getD "") || likeMatch c.name (search.getD "")
  else true

/-- The `get_items` filter: `disabled = 0` and the three-field search. -/
def itemPred (search : Option String) (i : ItemDoc) : Bool :=
  i.disabled == 0 &&
  (if truthyS search then
     likeMatch i.item_name (search.getD "") || likeMatch i.name (search.getD "") ||
     likeMatch i.item_code (search.getD "")
   else true)

/-- One id/name pair of a lookup response. -/
structure LookupRow where
  id : String
  name : String
deriving Repr, DecidableEq

/-- A lookup-endpoint response (`suppliers`/`customers`/`items` list plus
pagination echo). -/
structure LookupResp where
  rows : List LookupRow
  page : Int
  page_size : Int
  has_more : Bool
deriving Repr, DecidableEq

/-- Fetch `page_length` rows starting at `start` from the filtered store
(`frappe.get_all` with `start`/`page_length`). -/
def getAllRows {α : Type} (filtered : List α) (start page_length : Nat) :
    List α :=
  (filtered.drop start).take page_length

/-- `get_supplier` (utils.py).  Fields are aliased `name as id`,
`supplier_name as name`; the row dict has only those two keys, so
`r.get("supplier_name")` in the shaping comprehension reads `None`. -/
def getSupplier (perm : String → Bool) (db : List Supplier)
    (page page_size : Param) (search : Option String) :
    Except String LookupResp :=
  if !(perm "read") then .error "Not permitted" else
  let pg := pageEff page
  let ps := sizeEff 200 page_size
  let start := startIdx pg ps
  let fetched := getAllRows (db.filter (supplierPred search)) start (ps.toNat + 1)
  let has_more := decide (fetched.length > ps.toNat)
  let rows := if has_more then fetched.take ps.toNat else fetched
  .ok { rows := rows.map (fun r =>
          { id := sOr (some r.name) r.supplier_name
            name := sOr (some r.supplier_name) (sOr none r.name) })
        page := pg
        page_size := ps
        has_more := has_more }

/-- `get_customer` (utils.py). -/
def getCustomer (perm : String → Bool) (db : List Customer)
    (page page_size : Param) (search : Option String) :
    Except String LookupResp :=
  if !(perm "read") then .error "Not permitted" else
  let pg := pageEff page
  let ps := sizeEff 200 page_size
  let start := startIdx pg ps
  let fetched := getAllRows (db.filter (customerPred search)) start (ps.toNat + 1)
  let has_more := decide (fetched.length > ps.toNat)
  let rows := if has_more then fetched.take ps.toNat else fetched
  .ok { rows := rows.map (fun r =>
          { id := sOr (some r.name) r.customer_name
            name := sOr (some r.customer_name) (sOr none r.name) })
        page := pg
        page_size := ps
        has_more := has_more }

/-- `get_items` (utils.py); the shaped rows also carry a constant `price := 0`
which the claims do not mention, omitted from `LookupRow`. -/
def getItems (perm : String → Bool) (db : List ItemDoc)
    (page page_size : Param) (search : Option String) :
    Except String LookupResp :=
  if !(perm "read") then .error "Not permitted" else
  let pg := pageEff page
  let ps := sizeEff 200 page_size
  let start := startIdx pg ps
  let fetched := getAllRows (db.filter (itemPred search)) start (ps.toNat + 1)
  let has_more := decide (fetched.length > ps.toNat)
  let rows := if has_more then fetched.take ps.toNat else fetched
  .ok { rows := rows.map (fun r =>
          { id := sOr (some r.name) r.item_name
            name := sOr (some r.item_name) r.name })
        page := pg
        page_size := ps
        has_more := has_more }

/-- `get_user_default_company` (user.py): verbatim delegation to the
framework's `get_default_company`. -/
def getUserDefaultCompany (default_company : String) : String :=
  default_company

/-- A permission oracle granting everything. -/
def permAll : String → Bool := fun _ => true

/-- A permission oracle denying everything. -/
def permNone : String → Bool := fun _ => false

/-- Sample "Invoice Form" record used to instantiate theorems. -/
def sampleInvoice : Invoice :=
  { name := "INV-1", posting_date := "2025-01-01", supplier := "SUP-1",
    supplier_name := "Farm", grand_total := 10, docstatus := 0,
    lock_update := 0, is_draft := 1, total_commissions_and_taxes := 0,
    pamper_commission := 0, remarks := "", items := [] }

/-- Sample item payload used to instantiate theorems. -/
def sampleItem : ItemPayload :=
  { item_code := some "A", item_name := some "Apple", qty := some 2,
    quantity := none, price := some 3, total := none,
    customer := some "C1", customerId := none }

/-- Sample accepted `create_invoice_form` payload. -/
def samplePayload : CreatePayload :=
  { posting_date := some "2025-01-01", supplier := some "SUP-1",
    supplier_name := some "Farm", items := some [sampleItem],
    commission_rate := none, tax_rate := none, pamper_commission := none }

lemma foldl_add_map_sum {α : Type} (f : α → ℚ) (l : List α) (c : ℚ) :
    l.foldl (fun a x => a + f x) c = c + (l.map f).sum := by
  induction l generalizing c with
  | nil => simp
  | cons x xs ih =>
    simp only [List.foldl_cons, List.map_cons, List.sum_cons, ih]
    ring

lemma grandTotalOf_eq_sum (items : List ItemPayload) :
    grandTotalOf items = (items.map lineTotal).sum := by
  simp [grandTotalOf, foldl_add_map_sum]

/-- The combined row predicate the C1 claim quantifies over: framework
filters together with the in-memory search post-filter. -/
def invFullMatch (sd ed sup search : Option String) (inv : Invoice) : Bool :=
  invMatches sd ed sup inv &&
  (!truthyS search || searchMatch (lowerStr (trimStr (search.getD ""))) inv)

/-- C1 (amended): when no search string is supplied, `get_invoices` sets
`has_more` to `true` exactly when matching rows exist beyond the current
page window, i.e. when `start + page_size < total_count`. -/
theorem getInvoices_has_more_no_search
    (perm : String → Bool) (db : List Invoice)
    (sd ed sup search : Option String) (page psize : Param)
    (hperm : perm "read" = true) (hs : truthyS search = false) :
    ∃ r, getInvoices perm db sd ed sup page psize search = .ok r ∧
      (r.has_more = true ↔
        startIdx (pageEff page) (sizeEff 100 psize) + (sizeEff 100 psize).toNat
          < (db.filter (invMatches sd ed sup)).length) := by
  simp only [getInvoices, hperm, Bool.not_true, Bool.false_eq_true,
    if_false, hs]
  refine ⟨_, rfl, ?_⟩
  simp only [decide_eq_true_eq, List.length_map, List.length_take,
    List.length_drop]
  omega

/-- Witness for `getInvoices_has_more_no_search` at a concrete input. -/
theorem getInvoices_has_more_no_search_witness :
    ∃ r, getInvoices permAll [sampleInvoice] none none none
        (.intVal 1) (.intVal 20) none = .ok r ∧
      (r.has_more = true ↔
        startIdx (pageEff (.intVal 1)) (sizeEff 100 (.intVal 20)) +
            (sizeEff 100 (.intVal 20)).toNat
          < ([sampleInvoice].filter (invMatches none none none)).length) :=
  getInvoices_has_more_no_search permAll [sampleInvoice] none none none none
    (.intVal 1) (.intVal 20) rfl rfl

/-- C1 (counterexample): with a search string, `has_more` can be `true`
although no row matching the filters and the search exists at all — the
flag compares the post-filtered page against the unsearched total count. -/
theorem getInvoices_has_more_search_cex :
    (getInvoices permAll [sampleInvoice] none none none
        (.intVal 1) (.intVal 20) (some "zzz")).map
        (fun r => (r.has_more, r.invoices.length)) = .ok (true, 0)
    ∧ ([sampleInvoice].filter
        (invFullMatch none none none (some "zzz"))).length = 0 :=
  ⟨rfl, rfl⟩

/-- C8: every row of a `get_invoices` response carries the constant
permission object `{can_update := true, can_delete := true,
can_submit := true, locked := false}`, whatever the stored document or the
oracle's write/submit/delete verdicts are. -/
theorem getInvoices_permission_constant
    (perm : String → Bool) (db : List Invoice)
    (sd ed sup search : Option String) (page psize : Param)
    (hperm : perm "read" = true) :
    ∃ r, getInvoices perm db sd ed sup page psize search = .ok r ∧
      ∀ row ∈ r.invoices, row.permission =
        { can_update := true, can_delete := true,
          can_submit := true, locked := false } := by
  simp only [getInvoices, hperm, Bool.not_true, Bool.false_eq_true, if_false]
  refine ⟨_, rfl, ?_⟩
  intro row hrow
  simp only [List.mem_map] at hrow
  obtain ⟨x, _, hx⟩ := hrow
  rw [← hx]
  rfl

/-- Witness for `getInvoices_permission_constant` at a concrete input. -/
theorem getInvoices_permission_constant_witness :
    ∃ r, getInvoices permAll
        [{ sampleInvoice with docstatus := 1, lock_update := 1 }]
        none none none (.intVal 1) (.intVal 20) none = .ok r ∧
      ∀ row ∈ r.invoices, row.permission =
        { can_update := true, can_delete := true,
          can_submit := true, locked := false } :=
  getInvoices_permission_constant permAll
    [{ sampleInvoice with docstatus := 1, lock_update := 1 }]
    none none none none (.intVal 1) (.intVal 20) rfl

lemma accepted_parts (p : CreatePayload) (hp : acceptedPayload p = true) :
    truthyS p.posting_date = true ∧ truthyS p.supplier = true ∧
    (p.items.getD []).isEmpty = false := by
  simp only [acceptedPayload, Bool.and_eq_true, Bool.not_eq_true'] at hp
  exact ⟨hp.1.1, hp.1.2, hp.2⟩

/-- C2 (amended): with the oracle denying every permission type, the read
and mutation endpoints all raise "Not permitted" and leave the store
untouched — except `create_invoice_form`, which never consults the oracle
and inserts the document regardless (`ignore_permissions=True`). -/
theorem endpoints_enforce_permissions
    (perm : String → Bool) (db : List Invoice)
    (sdb : List Supplier) (cdb : List Customer) (idb : List ItemDoc)
    (sd ed sup search : Option String) (page psize : Param)
    (name : String) (d : Invoice) (data : Option UpdatePayload)
    (p : CreatePayload) (newName : String)
    (hperm : ∀ s, perm s = false)
    (hname : name ≠ "") (hfind : findDoc db name = some d)
    (hp : acceptedPayload p = true) :
    getInvoices perm db sd ed sup page psize search = .error "Not permitted"
    ∧ getInvoiceDetails perm db name = .error "Not permitted"
    ∧ updateInvoice perm db name data = (.error "Not permitted", db)
    ∧ submitInvoice perm db name = (.error "Not permitted", db)
    ∧ deleteInvoice perm db name = (.error "Not permitted", db)
    ∧ getSupplier perm sdb page psize search = .error "Not permitted"
    ∧ getCustomer perm cdb page psize search = .error "Not permitted"
    ∧ getItems perm idb page psize search = .error "Not permitted"
    ∧ createInvoiceForm perm db newName p =
        (.ok (createResp newName p), db ++ [createdDoc newName p]) := by
  obtain ⟨h1, h2, h3⟩ := accepted_parts p hp
  refine ⟨?_, ?_, ?_, ?_, ?_, ?_, ?_, ?_, ?_⟩
  · simp [getInvoices, hperm]
  · simp [getInvoiceDetails, hname, hfind, hperm]
  · simp [updateInvoice, hname, hfind, hperm]
  · simp [submitInvoice, hname, hfind, hperm]
  · simp [deleteInvoice, hname, hfind, hperm]
  · simp [getSupplier, hperm]
  · simp [getCustomer, hperm]
  · simp [getItems, hperm]
  · simp [createInvoiceForm, h1, h2, h3]

/-- Witness for `endpoints_enforce_permissions` at a concrete input. -/
theorem endpoints_enforce_permissions_witness :
    getInvoices permNone [sampleInvoice] none none none (.intVal 1)
        (.intVal 20) none = .error "Not permitted"
    ∧ getInvoiceDetails permNone [sampleInvoice] "INV-1" = .error "Not permitted"
    ∧ updateInvoice permNone [sampleInvoice] "INV-1" none =
        (.error "Not permitted", [sampleInvoice])
    ∧ submitInvoice permNone [sampleInvoice] "INV-1" =
        (.error "Not permitted", [sampleInvoice])
    ∧ deleteInvoice permNone [sampleInvoice] "INV-1" =
        (.error "Not permitted", [sampleInvoice])
    ∧ getSupplier permNone [] (.intVal 1) (.intVal 20) none = .error "Not permitted"
    ∧ getCustomer permNone [] (.intVal 1) (.intVal 20) none = .error "Not permitted"
    ∧ getItems permNone [] (.intVal 1) (.intVal 20) none = .error "Not permitted"
    ∧ createInvoiceForm permNone [sampleInvoice] "INV-2" samplePayload =
        (.ok (createResp "INV-2" samplePayload),
         [sampleInvoice] ++ [createdDoc "INV-2" samplePayload]) :=
  endpoints_enforce_permissions permNone [sampleInvoice] [] [] []
    none none none none (.intVal 1) (.intVal 20) "INV-1" sampleInvoice none
    samplePayload "INV-2" (fun _ => rfl) (by decide) (by decide) rfl

/-- C2 (counterexample): even with the oracle denying everything,
`create_invoice_form` succeeds and mutates the store. -/
theorem create_ignores_permissions_cex :
    (createInvoiceForm permNone [] "INV-2" samplePayload).1 =
      .ok (createResp "INV-2" samplePayload)
    ∧ (createInvoiceForm permNone [] "INV-2" samplePayload).2 ≠
        ([] : List Invoice) :=
  ⟨rfl, fun h => List.noConfusion h⟩

/-- Stated from the claim's words (C3): a line total is the item's provided
total, or qty times price only when no total is provided. -/
def specLineTotal (it : ItemPayload) : ℚ :=
  match it.total with
  | some t => t
  | none => qOr it.qty (qOr it.quantity 0) * qOr it.price 0

/-- Stated from the claim's words (C3): `grand_total` as the sum of
`specLineTotal` over the payload's items. -/
def specGrandTotal (p : CreatePayload) : ℚ :=
  ((p.items.getD []).map specLineTotal).sum

/-- C3 (amended): for every accepted payload, the created invoice's
`grand_total` is the sum over the items of the line total, where a line
total is the provided total when it is nonzero, and qty × price when the
total is absent or zero (`lineTotal`). -/
theorem create_grand_total_sum
    (perm : String → Bool) (db : List Invoice) (newName : String)
    (p : CreatePayload) (hp : acceptedPayload p = true) :
    ∃ r, (createInvoiceForm perm db newName p).1 = .ok r ∧
      r.grand_total = ((p.items.getD []).map lineTotal).sum := by
  obtain ⟨h1, h2, h3⟩ := accepted_parts p hp
  simp only [createInvoiceForm, h1, h2, h3, Bool.not_true, Bool.false_or,
    Bool.or_self, Bool.false_eq_true, if_false]
  refine ⟨_, rfl, ?_⟩
  simp [createResp, createdDoc, grandTotalOf_eq_sum]

/-- Witness for `create_grand_total_sum` at a concrete input. -/
theorem create_grand_total_sum_witness :
    ∃ r, (createInvoiceForm permAll [] "INV-3" samplePayload).1 = .ok r ∧
      r.grand_total = ((samplePayload.items.getD []).map lineTotal).sum :=
  create_grand_total_sum permAll [] "INV-3" samplePayload rfl

/-- Item payload carrying an explicit `total` of 0 next to nonzero
qty × price. -/
def zeroTotalItem : ItemPayload :=
  { item_code := some "A", item_name := some "A", qty := some 2,
    quantity := none, price := some 3, total := some 0,
    customer := none, customerId := none }

/-- Accepted payload whose single item provides `total = 0`. -/
def zeroTotalPayload : CreatePayload :=
  { posting_date := some "2025-01-01", supplier := some "SUP-1",
    supplier_name := none, items := some [zeroTotalItem],
    commission_rate := none, tax_rate := none, pamper_commission := none }

/-- C3 (counterexample): an item with a provided `total` of 0 contributes
qty × price = 6, not the provided 0 — `flt(total) or (qty * price)` treats
a zero total as absent. -/
theorem create_grand_total_cex :
    (createInvoiceForm permAll [] "INV-4" zeroTotalPayload).1 =
      .ok (createResp "INV-4" zeroTotalPayload)
    ∧ (createResp "INV-4" zeroTotalPayload).grand_total = 6
    ∧ specGrandTotal zeroTotalPayload = 0
    ∧ (6 : ℚ) ≠ 0 := by
  refine ⟨rfl, ?_, ?_, by norm_num⟩
  · simp [createResp, createdDoc, grandTotalOf, lineTotal, zeroTotalPayload,
      zeroTotalItem, qOr, fltOpt]
    norm_num
  · simp [specGrandTotal, specLineTotal, zeroTotalPayload, zeroTotalItem]

/-- Stated from the claim's words (C4): the commission-and-tax formula with
the rates defaulting only when absent from the payload. -/
def specCommTaxes (gt : ℚ) (p : CreatePayload) : ℚ :=
  gt * (p.commission_rate.getD 5) / 100 +
  (gt * (p.commission_rate.getD 5) / 100) * (p.tax_rate.getD 15) / 100

/-- C4 (amended): for every accepted payload,
`total_commissions_and_taxes = gt*cr/100 + (gt*cr/100)*tr/100` where the
effective rates default to 5 and 15 when the payload value is absent or
falsy (zero). -/
theorem create_comm_taxes_formula
    (perm : String → Bool) (db : List Invoice) (newName : String)
    (p : CreatePayload) (hp : acceptedPayload p = true) :
    ∃ r, (createInvoiceForm perm db newName p).1 = .ok r ∧
      r.total_commissions_and_taxes =
        r.grand_total * (qOr p.commission_rate 5) / 100 +
        (r.grand_total * (qOr p.commission_rate 5) / 100) *
          (qOr p.tax_rate 15) / 100 := by
  obtain ⟨h1, h2, h3⟩ := accepted_parts p hp
  simp only [createInvoiceForm, h1, h2, h3, Bool.not_true, Bool.false_or,
    Bool.or_self, Bool.false_eq_true, if_false]
  refine ⟨_, rfl, ?_⟩
  simp [createResp, createdDoc, commTaxesOf]

/-- Witness for `create_comm_taxes_formula` at a concrete input. -/
theorem create_comm_taxes_formula_witness :
    ∃ r, (createInvoiceForm permAll [] "INV-5" samplePayload).1 = .ok r ∧
      r.total_commissions_and_taxes =
        r.grand_total * (qOr samplePayload.commission_rate 5) / 100 +
        (r.grand_total * (qOr samplePayload.commission_rate 5) / 100) *
          (qOr samplePayload.tax_rate 15) / 100 :=
  create_comm_taxes_formula permAll [] "INV-5" samplePayload rfl

/-- Accepted payload requesting an explicit `commission_rate` of 0. -/
def zeroRatePayload : CreatePayload :=
  { posting_date := some "2025-01-01", supplier := some "SUP-1",
    supplier_name := none,
    items := some [{ item_code := some "A", item_name := none,
                     qty := some 1, quantity := none, price := some 100,
                     total := none, customer := none, customerId := none }],
    commission_rate := some 0, tax_rate := none, pamper_commission := none }

/-- C4 (counterexample): with `commission_rate` explicitly 0 the claim's
formula yields 0, but the code substitutes the default 5 and produces
23/4 on a grand total of 100. -/
theorem create_comm_taxes_cex :
    (createInvoiceForm permAll [] "INV-6" zeroRatePayload).1 =
      .ok (createResp "INV-6" zeroRatePayload)
    ∧ (createResp "INV-6" zeroRatePayload).grand_total = 100
    ∧ (createResp "INV-6" zeroRatePayload).total_commissions_and_taxes = 23 / 4
    ∧ specCommTaxes 100 zeroRatePayload = 0
    ∧ (23 / 4 : ℚ) ≠ 0 := by
  refine ⟨rfl, ?_, ?_, ?_, by norm_num⟩
  · simp [createResp, createdDoc, grandTotalOf, lineTotal, zeroRatePayload,
      qOr, fltOpt]
  · simp [createResp, createdDoc, grandTotalOf, lineTotal, commTaxesOf,
      zeroRatePayload, qOr, fltOpt]
    norm_num
  · simp [specCommTaxes, zeroRatePayload]

/-- C5: `submit_invoice` errors and leaves the store unchanged for any
non-draft invoice; for a draft invoice with submit permission it submits
(docstatus becomes 1) and returns the name with the new docstatus. -/
theorem submit_invoice_spec
    (perm : String → Bool) (db : List Invoice) (name : String) (d : Invoice)
    (hname : name ≠ "") (hfind : findDoc db name = some d) :
    (d.docstatus ≠ 0 →
      (submitInvoice perm db name).1.isOk = false ∧
      (submitInvoice perm db name).2 = db)
    ∧ (d.docstatus = 0 → perm "submit" = true →
      submitInvoice perm db name =
        (.ok { name := d.name, docstatus := 1 },
         replaceDoc db name { d with docstatus := 1 })) := by
  constructor
  · intro hds
    by_cases hsub : perm "submit"
    · simp [submitInvoice, hname, hfind, hsub, hds, Except.isOk, Except.toBool]
    · simp [submitInvoice, hname, hfind, hsub, Except.isOk, Except.toBool]
  · intro hds hsub
    simp [submitInvoice, hname, hfind, hsub, hds]

/-- Witness for `submit_invoice_spec` at a concrete input (a draft invoice
with submit permission). -/
theorem submit_invoice_spec_witness :
    submitInvoice permAll [sampleInvoice] "INV-1" =
      (.ok { name := sampleInvoice.name, docstatus := 1 },
       replaceDoc [sampleInvoice] "INV-1"
         { sampleInvoice with docstatus := 1 }) :=
  (submit_invoice_spec permAll [sampleInvoice] "INV-1" sampleInvoice
    (by decide) rfl).2 rfl rfl

/-- C6: every endpoint clamps the effective page to at least 1 and the
effective page size to [1,100] (`get_invoices`) or [1,200] (lookups), and
echoes the clamped values in the response — for any numeric, zero,
negative or non-numeric input. -/
theorem pagination_clamped
    (perm : String → Bool) (db : List Invoice) (sdb : List Supplier)
    (cdb : List Customer) (idb : List ItemDoc)
    (sd ed sup search : Option String) (page psize : Param)
    (hperm : perm "read" = true) :
    (∃ r, getInvoices perm db sd ed sup page psize search = .ok r ∧
      r.page = pageEff page ∧ r.page_size = sizeEff 100 psize ∧
      1 ≤ r.page ∧ 1 ≤ r.page_size ∧ r.page_size ≤ 100)
    ∧ (∃ r, getSupplier perm sdb page psize search = .ok r ∧
      r.page = pageEff page ∧ r.page_size = sizeEff 200 psize ∧
      1 ≤ r.page ∧ 1 ≤ r.page_size ∧ r.page_size ≤ 200)
    ∧ (∃ r, getCustomer perm cdb page psize search = .ok r ∧
      r.page = pageEff page ∧ r.page_size = sizeEff 200 psize ∧
      1 ≤ r.page ∧ 1 ≤ r.page_size ∧ r.page_size ≤ 200)
    ∧ (∃ r, getItems perm idb page psize search = .ok r ∧
      r.page = pageEff page ∧ r.page_size = sizeEff 200 psize ∧
      1 ≤ r.page ∧ 1 ≤ r.page_size ∧ r.page_size ≤ 200) := by
  have h1 : 1 ≤ pageEff page := by unfold pageEff; omega
  have h2 : 1 ≤ sizeEff 100 psize := by unfold sizeEff; omega
  have h3 : sizeEff 100 psize ≤ 100 := by unfold sizeEff; omega
  have h4 : 1 ≤ sizeEff 200 psize := by unfold sizeEff; omega
  have h5 : sizeEff 200 psize ≤ 200 := by unfold sizeEff; omega
  refine ⟨?_, ?_, ?_, ?_⟩
  · simp only [getInvoices, hperm, Bool.not_true, Bool.false_eq_true, if_false]
    exact ⟨_, rfl, rfl, rfl, h1, h2, h3⟩
  · simp only [getSupplier, hperm, Bool.not_true, Bool.false_eq_true, if_false]
    exact ⟨_, rfl, rfl, rfl, h1, h4, h5⟩
  · simp only [getCustomer, hperm, Bool.not_true, Bool.false_eq_true, if_false]
    exact ⟨_, rfl, rfl, rfl, h1, h4, h5⟩
  · simp only [getItems, hperm, Bool.not_true, Bool.false_eq_true, if_false]
    exact ⟨_, rfl, rfl, rfl, h1, h4, h5⟩

/-- Witness for `pagination_clamped` at a non-numeric page and a negative
page size. -/
theorem pagination_clamped_witness :
    (∃ r, getInvoices permAll [] none none none (.nonNum "x")
        (.intVal (-5)) none = .ok r ∧
      r.page = pageEff (.nonNum "x") ∧
      r.page_size = sizeEff 100 (.intVal (-5)) ∧
      1 ≤ r.page ∧ 1 ≤ r.page_size ∧ r.page_size ≤ 100)
    ∧ (∃ r, getSupplier permAll [] (.nonNum "x") (.intVal (-5)) none = .ok r ∧
      r.page = pageEff (.nonNum "x") ∧
      r.page_size = sizeEff 200 (.intVal (-5)) ∧
      1 ≤ r.page ∧ 1 ≤ r.page_size ∧ r.page_size ≤ 200)
    ∧ (∃ r, getCustomer permAll [] (.nonNum "x") (.intVal (-5)) none = .ok r ∧
      r.page = pageEff (.nonNum "x") ∧
      r.page_size = sizeEff 200 (.intVal (-5)) ∧
      1 ≤ r.page ∧ 1 ≤ r.page_size ∧ r.page_size ≤ 200)
    ∧ (∃ r, getItems permAll [] (.nonNum "x") (.intVal (-5)) none = .ok r ∧
      r.page = pageEff (.nonNum "x") ∧
      r.page_size = sizeEff 200 (.intVal (-5)) ∧
      1 ≤ r.page ∧ 1 ≤ r.page_size ∧ r.page_size ≤ 200) :=
  pagination_clamped permAll [] [] [] [] none none none none
    (.nonNum "x") (.intVal (-5)) rfl

lemma ite_take_length_le {α : Type} (f : List α) (ps : Nat) :
    (if f.length > ps then f.take ps else f).length ≤ ps := by
  by_cases h : f.length > ps
  · simp [h, List.length_take]
  · simp [h]; omega

/-- C7: each lookup endpoint fetches `page_size + 1` rows, returns at most
`page_size` rows, and sets `has_more` exactly when the fetch returned more
than `page_size` rows. -/
theorem lookup_has_more_spec
    (perm : String → Bool) (sdb : List Supplier) (cdb : List Customer)
    (idb : List ItemDoc) (page psize : Param) (search : Option String)
    (hperm : perm "read" = true) :
    (∃ r, getSupplier perm sdb page psize search = .ok r ∧
      r.rows.length ≤ (sizeEff 200 psize).toNat ∧
      (r.has_more = true ↔
        (getAllRows (sdb.filter (supplierPred search))
            (startIdx (pageEff page) (sizeEff 200 psize))
            ((sizeEff 200 psize).toNat + 1)).length >
          (sizeEff 200 psize).toNat))
    ∧ (∃ r, getCustomer perm cdb page psize search = .ok r ∧
      r.rows.length ≤ (sizeEff 200 psize).toNat ∧
      (r.has_more = true ↔
        (getAllRows (cdb.filter (customerPred search))
            (startIdx (pageEff page) (sizeEff 200 psize))
            ((sizeEff 200 psize).toNat + 1)).length >
          (sizeEff 200 psize).toNat))
    ∧ (∃ r, getItems perm idb page psize search = .ok r ∧
      r.rows.length ≤ (sizeEff 200 psize).toNat ∧
      (r.has_more = true ↔
        (getAllRows (idb.filter (itemPred search))
            (startIdx (pageEff page) (sizeEff 200 psize))
            ((sizeEff 200 psize).toNat + 1)).length >
          (sizeEff 200 psize).toNat)) := by
  refine ⟨?_, ?_, ?_⟩
  · simp only [getSupplier, hperm, Bool.not_true, Bool.false_eq_true, if_false]
    refine ⟨_, rfl, ?_, ?_⟩
    · simp only [List.length_map, decide_eq_true_eq]
      exact ite_take_length_le _ _
    · simp only [decide_eq_true_eq]
  · simp only [getCustomer, hperm, Bool.not_true, Bool.false_eq_true, if_false]
    refine ⟨_, rfl, ?_, ?_⟩
    · simp only [List.length_map, decide_eq_true_eq]
      exact ite_take_length_le _ _
    · simp only [decide_eq_true_eq]
  · simp only [getItems, hperm, Bool.not_true, Bool.false_eq_true, if_false]
    refine ⟨_, rfl, ?_, ?_⟩
    · simp only [List.length_map, decide_eq_true_eq]
      exact ite_take_length_le _ _
    · simp only [decide_eq_true_eq]

/-- Witness for `lookup_has_more_spec` at a concrete input. -/
theorem lookup_has_more_spec_witness :
    (∃ r, getSupplier permAll [⟨"S1", "Alpha", 1⟩, ⟨"S2", "Beta", 1⟩]
        (.intVal 1) (.intVal 1) none = .ok r ∧
      r.rows.length ≤ (sizeEff 200 (.intVal 1)).toNat ∧
      (r.has_more = true ↔
        (getAllRows ([⟨"S1", "Alpha", 1⟩, ⟨"S2", "Beta", 1⟩].filter
              (supplierPred none))
            (startIdx (pageEff (.intVal 1)) (sizeEff 200 (.intVal 1)))
            ((sizeEff 200 (.intVal 1)).toNat + 1)).length >
          (sizeEff 200 (.intVal 1)).toNat))
    ∧ (∃ r, getCustomer permAll [] (.intVal 1) (.intVal 1) none = .ok r ∧
      r.rows.length ≤ (sizeEff 200 (.intVal 1)).toNat ∧
      (r.has_more = true ↔
        (getAllRows (([] : List Customer).filter (customerPred none))
            (startIdx (pageEff (.intVal 1)) (sizeEff 200 (.intVal 1)))
            ((sizeEff 200 (.intVal 1)).toNat + 1)).length >
          (sizeEff 200 (.intVal 1)).toNat))
    ∧ (∃ r, getItems permAll [] (.intVal 1) (.intVal 1) none = .ok r ∧
      r.rows.length ≤ (sizeEff 200 (.intVal 1)).toNat ∧
      (r.has_more = true ↔
        (getAllRows (([] : List ItemDoc).filter (itemPred none))
            (startIdx (pageEff (.intVal 1)) (sizeEff 200 (.intVal 1)))
            ((sizeEff 200 (.intVal 1)).toNat + 1)).length >
          (sizeEff 200 (.intVal 1)).toNat)) :=
  lookup_has_more_spec permAll [⟨"S1", "Alpha", 1⟩, ⟨"S2", "Beta", 1⟩] [] []
    (.intVal 1) (.intVal 1) none rfl

/-- C9: an explicit falsy `commission_rate` or `tax_rate` of 0 in the
payload produces exactly the same result as omitting the key — the code
substitutes the defaults 5 and 15, so a zero rate cannot be requested. -/
theorem create_zero_rates_defaulted
    (perm : String → Bool) (db : List Invoice) (newName : String)
    (p : CreatePayload) :
    createInvoiceForm perm db newName { p with commission_rate := some 0 } =
      createInvoiceForm perm db newName { p with commission_rate := none }
    ∧ createInvoiceForm perm db newName { p with tax_rate := some 0 } =
      createInvoiceForm perm db newName { p with tax_rate := none } := by
  constructor <;>
    simp [createInvoiceForm, createResp, createdDoc, qOr]

lemma findDoc_append_fresh (db : List Invoice) (d : Invoice)
    (hfresh : ∀ x ∈ db, x.name ≠ d.name) :
    findDoc (db ++ [d]) d.name = some d := by
  unfold findDoc
  induction db with
  | nil =>
    simp [List.find?]
  | cons x xs ih =>
    have hx : (x.name == d.name) = false := by
      simp only [beq_eq_false_iff_ne, ne_eq]
      exact hfresh x (by simp)
    simp only [List.cons_append, List.find?_cons, hx]
    exact ih (fun y hy => hfresh y (by simp [hy]))

/-- C10: every invoice created by `create_invoice_form` carries
`lock_update = 1` and `is_draft = 1`, and a subsequent
`get_invoice_details` on it reports `is_locked = true`. -/
theorem create_locked_draft
    (perm : String → Bool) (db : List Invoice) (newName : String)
    (p : CreatePayload) (hp : acceptedPayload p = true)
    (hn : newName ≠ "") (hperm : perm "read" = true)
    (hfresh : ∀ x ∈ db, x.name ≠ newName) :
    (createdDoc newName p).lock_update = 1
    ∧ (createdDoc newName p).is_draft = 1
    ∧ (createInvoiceForm perm db newName p).2 = db ++ [createdDoc newName p]
    ∧ ∃ r, getInvoiceDetails perm
        ((createInvoiceForm perm db newName p).2) newName = .ok r ∧
        r.is_locked = true := by
  obtain ⟨h1, h2, h3⟩ := accepted_parts p hp
  have hstate : (createInvoiceForm perm db newName p).2 =
      db ++ [createdDoc newName p] := by
    simp [createInvoiceForm, h1, h2, h3]
  have hname : (createdDoc newName p).name = newName := rfl
  have hfind : findDoc (db ++ [createdDoc newName p]) newName =
      some (createdDoc newName p) := by
    have := findDoc_append_fresh db (createdDoc newName p)
      (fun x hx => by rw [hname]; exact hfresh x hx)
    rwa [hname] at this
  refine ⟨rfl, rfl, hstate, ?_⟩
  rw [hstate]
  simp only [getInvoiceDetails, hn, hfind, hperm, Bool.not_true,
    Bool.false_eq_true, if_false, if_neg hn]
  exact ⟨_, rfl, rfl⟩

/-- Witness for `create_locked_draft` at a concrete input. -/
theorem create_locked_draft_witness :
    (createdDoc "INV-7" samplePayload).lock_update = 1
    ∧ (createdDoc "INV-7" samplePayload).is_draft = 1
    ∧ (createInvoiceForm permAll [] "INV-7" samplePayload).2 =
        [] ++ [createdDoc "INV-7" samplePayload]
    ∧ ∃ r, getInvoiceDetails permAll
        ((createInvoiceForm permAll [] "INV-7" samplePayload).2) "INV-7" =
          .ok r ∧
        r.is_locked = true :=
  create_locked_draft permAll [] "INV-7" samplePayload rfl (by decide) rfl
    (fun x hx => by simp at hx)
